import Mathlib

/-!
# LearnOpenGL: the free-fly camera of `CommonImport/Camera.h`

A shallow embedding of `class Camera` and of the GLM helpers it calls.

Arithmetic model.  The C++ code computes in `float`.  Here a `float` is an
element of an arbitrary linear ordered field `F` and `+ - * /` are exact, so
rounding, infinities and NaN are outside the model.  The theorems below are
those whose statements do not lean on exactness: bounds obtained from
comparisons, equalities whose two sides are the same expression of the code,
and signs.  Equalities that hold in exact arithmetic only (a unit length, a
round trip `p + v - v = p`) are not stated of the program.

Where a closed example is needed, the library is instantiated with the real
functions `Real.cos`, `Real.sin`, `Real.sqrt` and the constant `pi / 180`.

The transcendental functions (`cos`, `sin`, `sqrt`) and the degree-to-radian
constant are not code of `Camera.h`; they are passed in as a record
`ScalarMath F`.  All definitions are generic in `F` and computable.
-/

namespace LearnOpenGL

/-! ## Vectors and matrices (GLM) -/

/-- The type `glm::vec3`: three scalars `x`, `y`, `z`. -/
@[ext] structure Vec3 (F : Type) where
  x : F
  y : F
  z : F
  deriving DecidableEq

/-- The type `glm::vec4`: four scalars `x`, `y`, `z`, `w`. -/
@[ext] structure Vec4 (F : Type) where
  x : F
  y : F
  z : F
  w : F
  deriving DecidableEq

/-- The type `glm::mat4`, stored by columns as in GLM: `m[i]` is column `i`
and `m[i][j]` is the entry in column `i`, row `j`. -/
@[ext] structure Mat4 (F : Type) where
  c0 : Vec4 F
  c1 : Vec4 F
  c2 : Vec4 F
  c3 : Vec4 F
  deriving DecidableEq

/-- Modelled from the spec: the scalar functions `cos`, `sin`, `sqrt` of
`<cmath>` and the constant `0.01745329251994329576923690768489` (pi / 180) of
`glm::radians` are library code outside src/.  The camera is parameterised by
them. -/
structure ScalarMath (F : Type) where
  cos : F → F
  sin : F → F
  sqrt : F → F
  degToRad : F

variable {F : Type} [LinearOrderedField F]

/-- Modelled from the spec: `glm::radians(degrees)`, library code outside
src/, is `degrees * 0.0174532925...`. -/
def radians (L : ScalarMath F) (degrees : F) : F :=
  degrees * L.degToRad

/-- Modelled from the spec: `glm::inversesqrt(x)`, library code outside src/,
is `1 / sqrt(x)`. -/
def inversesqrt (L : ScalarMath F) (x : F) : F :=
  1 / L.sqrt x

namespace Vec3

/-- The sum `a + b` of `glm::vec3`, componentwise. -/
def add (a b : Vec3 F) : Vec3 F :=
  ⟨a.x + b.x, a.y + b.y, a.z + b.z⟩

/-- The difference `a - b` of `glm::vec3`, componentwise. -/
def sub (a b : Vec3 F) : Vec3 F :=
  ⟨a.x - b.x, a.y - b.y, a.z - b.z⟩

/-- The negation `-a` of `glm::vec3`, componentwise. -/
def neg (a : Vec3 F) : Vec3 F :=
  ⟨-a.x, -a.y, -a.z⟩

/-- The product `v * s` of a `glm::vec3` with a scalar. -/
def smul (v : Vec3 F) (s : F) : Vec3 F :=
  ⟨v.x * s, v.y * s, v.z * s⟩

end Vec3

/-- Modelled from the spec: `glm::dot` on `vec3`, library code outside src/:
the sum of the componentwise products. -/
def dot (a b : Vec3 F) : F :=
  a.x * b.x + a.y * b.y + a.z * b.z

/-- Modelled from the spec: `glm::cross`, library code outside src/:
`(x.y*y.z - y.y*x.z, x.z*y.x - y.z*x.x, x.x*y.y - y.x*x.y)`. -/
def cross (a b : Vec3 F) : Vec3 F :=
  ⟨a.y * b.z - b.y * a.z, a.z * b.x - b.z * a.x, a.x * b.y - b.x * a.y⟩

/-- Modelled from the spec: `glm::normalize`, library code outside src/:
`v * inversesqrt(dot(v, v))`. -/
def normalize (L : ScalarMath F) (v : Vec3 F) : Vec3 F :=
  v.smul (inversesqrt L (dot v v))

/-- Modelled from the spec: `glm::lookAt` (the right-handed `lookAtRH`, GLM's
default), library code outside src/; the spec's "standard look-at formula".
`f = normalize(center - eye)`, `s = normalize(cross(f, up))`, `u = cross(s, f)`;
the result is the identity matrix with `Result[i][0] = s[i]`,
`Result[i][1] = u[i]`, `Result[i][2] = -f[i]` for `i < 3` and
`Result[3] = (-dot(s, eye), -dot(u, eye), dot(f, eye), 1)`. -/
def lookAt (L : ScalarMath F) (eye center up : Vec3 F) : Mat4 F :=
  let f := normalize L (center.sub eye)
  let s := normalize L (cross f up)
  let u := cross s f
  { c0 := ⟨s.x, u.x, -f.x, 0⟩
    c1 := ⟨s.y, u.y, -f.y, 0⟩
    c2 := ⟨s.z, u.z, -f.z, 0⟩
    c3 := ⟨-dot s eye, -dot u eye, dot f eye, 1⟩ }

/-- Modelled from the spec: the product `m * v` of a `glm::mat4` with a
`glm::vec4`, library code outside src/: the combination of the columns of `m`
with the components of `v`. -/
def Mat4.mulVec (m : Mat4 F) (v : Vec4 F) : Vec4 F :=
  ⟨(m.c0.x * v.x + m.c1.x * v.y) + (m.c2.x * v.z + m.c3.x * v.w),
   (m.c0.y * v.x + m.c1.y * v.y) + (m.c2.y * v.z + m.c3.y * v.w),
   (m.c0.z * v.x + m.c1.z * v.y) + (m.c2.z * v.z + m.c3.z * v.w),
   (m.c0.w * v.x + m.c1.w * v.y) + (m.c2.w * v.z + m.c3.w * v.w)⟩

/-- Modelled from the spec: the product `m * n` of two `glm::mat4`, library
code outside src/: column `j` of the product is `m` times column `j` of `n`. -/
def Mat4.mul (m n : Mat4 F) : Mat4 F :=
  ⟨m.mulVec n.c0, m.mulVec n.c1, m.mulVec n.c2, m.mulVec n.c3⟩

/-! ## The camera -/

/-- The enumeration `Camera_Movement`. -/
inductive Camera_Movement where
  | FORWARD
  | BACKWARD
  | LEFT
  | RIGHT
  deriving DecidableEq

/-- The state of a `Camera` object: the five vectors held by `CameraImpl`
(reached through `m_pCameraImpl`) and the five public scalars of `Camera`. -/
@[ext] structure Camera (F : Type) where
  Position : Vec3 F
  Front : Vec3 F
  Up : Vec3 F
  Right : Vec3 F
  WorldUp : Vec3 F
  Yaw : F
  Pitch : F
  MovementSpeed : F
  MouseSensitivity : F
  Zoom : F
  deriving DecidableEq

/-- The method `Camera::updateCameraVectors`: recompute `Front` from `Yaw` and
`Pitch`, then `Right` from the new `Front` and `WorldUp`, then `Up` from the new
`Right` and `Front`. -/
def updateCameraVectors (L : ScalarMath F) (c : Camera F) : Camera F :=
  let front : Vec3 F :=
    { x := L.cos (radians L c.Yaw) * L.cos (radians L c.Pitch)
      y := L.sin (radians L c.Pitch)
      z := L.sin (radians L c.Yaw) * L.cos (radians L c.Pitch) }
  let c1 : Camera F := { c with Front := normalize L front }
  let c2 : Camera F := { c1 with Right := normalize L (cross c1.Front c1.WorldUp) }
  { c2 with Up := normalize L (cross c2.Right c2.Front) }

/-- The method `Camera::GetViewMatrix`: the returned matrix together with the
camera state after the call. -/
def GetViewMatrix (L : ScalarMath F) (c : Camera F) : Mat4 F × Camera F :=
  (lookAt L c.Position (c.Position.add c.Front) c.Up, c)

/-- The method `Camera::ProcessKeyboard`: four successive `if` statements on
`direction`, each updating `Position`. -/
def ProcessKeyboard (c : Camera F) (direction : Camera_Movement) (deltaTime : F) : Camera F :=
  let velocity := c.MovementSpeed * deltaTime
  let c1 : Camera F :=
    if direction = Camera_Movement.FORWARD then
      { c with Position := c.Position.add (c.Front.smul velocity) }
    else c
  let c2 : Camera F :=
    if direction = Camera_Movement.BACKWARD then
      { c1 with Position := c1.Position.sub (c1.Front.smul velocity) }
    else c1
  let c3 : Camera F :=
    if direction = Camera_Movement.LEFT then
      { c2 with Position := c2.Position.sub (c2.Right.smul velocity) }
    else c2
  if direction = Camera_Movement.RIGHT then
    { c3 with Position := c3.Position.add (c3.Right.smul velocity) }
  else c3

/-- The method `Camera::ProcessMouseMovement`. -/
def ProcessMouseMovement (L : ScalarMath F) (c : Camera F) (xoffset yoffset : F)
    (constrainPitch : Bool) : Camera F :=
  let xoffset := xoffset * c.MouseSensitivity
  let yoffset := yoffset * c.MouseSensitivity
  let c1 : Camera F := { c with Yaw := c.Yaw + xoffset, Pitch := c.Pitch + yoffset }
  let c2 : Camera F :=
    if constrainPitch then
      let c2a : Camera F := if c1.Pitch > 89 then { c1 with Pitch := 89 } else c1
      if c2a.Pitch < -89 then { c2a with Pitch := -89 } else c2a
    else c1
  updateCameraVectors L c2

/-- The method `Camera::ProcessMouseScroll`. -/
def ProcessMouseScroll (c : Camera F) (yoffset : F) : Camera F :=
  let c1 : Camera F := { c with Zoom := c.Zoom - yoffset }
  let c2 : Camera F := if c1.Zoom < 1 then { c1 with Zoom := 1 } else c1
  if c2.Zoom > 45 then { c2 with Zoom := 45 } else c2

namespace Spec

/-- The specification's "clamps pitch to [-89, 89]". -/
def clampPitch (pitch : F) : F :=
  max (-89) (min pitch 89)

/-- The specification's "clamps to [1, 45]" of the zoom. -/
def clampZoom (zoom : F) : F :=
  max 1 (min zoom 45)

/-- The specification's basis recomputation, first step:
`front = normalize(cos yaw * cos pitch, sin pitch, sin yaw * cos pitch)`,
angles in degrees. -/
def front (L : ScalarMath F) (yaw pitch : F) : Vec3 F :=
  normalize L
    ⟨L.cos (radians L yaw) * L.cos (radians L pitch),
     L.sin (radians L pitch),
     L.sin (radians L yaw) * L.cos (radians L pitch)⟩

/-- The specification's basis recomputation, second step:
`right = normalize(cross(front, worldUp))`. -/
def right (L : ScalarMath F) (yaw pitch : F) (worldUp : Vec3 F) : Vec3 F :=
  normalize L (cross (front L yaw pitch) worldUp)

/-- The specification's basis recomputation, third step:
`up = normalize(cross(right, front))`. -/
def up (L : ScalarMath F) (yaw pitch : F) (worldUp : Vec3 F) : Vec3 F :=
  normalize L (cross (right L yaw pitch worldUp) (front L yaw pitch))

/-- The specification's "standard look-at formula" in its textbook form: with
the camera axes `d = normalize(eye - target)`, `r = normalize(cross(up, d))`
and `u = cross(d, r)`, the rotation matrix whose rows are `r`, `u`, `d` times
the translation by `-eye`. -/
def lookAtStandard (L : ScalarMath F) (eye target up : Vec3 F) : Mat4 F :=
  let d := normalize L (eye.sub target)
  let r := normalize L (cross up d)
  let u := cross d r
  Mat4.mul
    { c0 := ⟨r.x, u.x, d.x, 0⟩
      c1 := ⟨r.y, u.y, d.y, 0⟩
      c2 := ⟨r.z, u.z, d.z, 0⟩
      c3 := ⟨0, 0, 0, 1⟩ }
    { c0 := ⟨1, 0, 0, 0⟩
      c1 := ⟨0, 1, 0, 0⟩
      c2 := ⟨0, 0, 1, 0⟩
      c3 := ⟨-eye.x, -eye.y, -eye.z, 1⟩ }

end Spec

/-- A concrete camera over the rationals: the default camera moved to the
position `(1, 2, 3)`. -/
def sampleCamera : Camera ℚ where
  Position := ⟨1, 2, 3⟩
  Front := ⟨0, 0, -1⟩
  Up := ⟨0, 1, 0⟩
  Right := ⟨1, 0, 0⟩
  WorldUp := ⟨0, 1, 0⟩
  Yaw := -90
  Pitch := 0
  MovementSpeed := 2.5
  MouseSensitivity := 0.1
  Zoom := 45

/-! ## Field projections of the operations -/

section Projections

variable (L : ScalarMath F) (c : Camera F)

theorem updateCameraVectors_Position : (updateCameraVectors L c).Position = c.Position := rfl

theorem updateCameraVectors_WorldUp : (updateCameraVectors L c).WorldUp = c.WorldUp := rfl

theorem updateCameraVectors_Yaw : (updateCameraVectors L c).Yaw = c.Yaw := rfl

theorem updateCameraVectors_Pitch : (updateCameraVectors L c).Pitch = c.Pitch := rfl

theorem updateCameraVectors_MovementSpeed :
    (updateCameraVectors L c).MovementSpeed = c.MovementSpeed := rfl

theorem updateCameraVectors_MouseSensitivity :
    (updateCameraVectors L c).MouseSensitivity = c.MouseSensitivity := rfl

theorem updateCameraVectors_Zoom : (updateCameraVectors L c).Zoom = c.Zoom := rfl

/-- Running `updateCameraVectors` twice is the same as running it once: the
result depends only on `Yaw`, `Pitch` and `WorldUp`, which it does not change. -/
theorem updateCameraVectors_idem :
    updateCameraVectors L (updateCameraVectors L c) = updateCameraVectors L c := rfl

end Projections

/-! ## Vector algebra -/

section VectorAlgebra

variable (a b : Vec3 F) (t : F)

end VectorAlgebra

/-! ## The derived basis -/

section Basis

variable {L : ScalarMath F}

end Basis

/-! ## The look-at matrix -/

theorem normalize_sub_swap (L : ScalarMath F) (a b : Vec3 F) :
    normalize L (a.sub b) = (normalize L (b.sub a)).neg := by
  have h : dot (a.sub b) (a.sub b) = dot (b.sub a) (b.sub a) := by
    simp only [dot, Vec3.sub]; ring
  rw [normalize, normalize, h]
  ext <;> simp only [Vec3.smul, Vec3.sub, Vec3.neg] <;> ring

theorem cross_neg_right (a b : Vec3 F) : cross a b.neg = cross b a := by
  ext <;> simp only [cross, Vec3.neg] <;> ring

theorem cross_neg_left (a b : Vec3 F) : cross a.neg b = cross b a := by
  ext <;> simp only [cross, Vec3.neg] <;> ring

/-- The matrix of `glm::lookAt` is the textbook look-at matrix: the rotation
onto the camera axes times the translation by `-eye`. -/
theorem lookAt_eq_lookAtStandard (L : ScalarMath F) (eye center up : Vec3 F) :
    lookAt L eye center up = Spec.lookAtStandard L eye center up := by
  simp only [lookAt, Spec.lookAtStandard, normalize_sub_swap L eye center, cross_neg_right,
    cross_neg_left]
  ext <;> simp [Mat4.mul, Mat4.mulVec, Vec3.neg, dot] <;> ring

/-! ## The claims -/

/-- C2.  After `ProcessMouseMovement` with `constrainPitch = true` the pitch
lies in `[-89, 89]`, whatever the camera state and the offsets were. -/
theorem C2_pitch_constrained (L : ScalarMath F) (c : Camera F) (xoffset yoffset : F) :
    -89 ≤ (ProcessMouseMovement L c xoffset yoffset true).Pitch ∧
    (ProcessMouseMovement L c xoffset yoffset true).Pitch ≤ 89 := by
  simp only [ProcessMouseMovement, updateCameraVectors_Pitch, if_true]
  split_ifs with h1 h2 h2 <;> dsimp only at * <;> constructor <;> linarith

/-- C3.  After `ProcessMouseScroll` the zoom lies in `[1, 45]`, and it is the
old zoom minus `yoffset` whenever that difference lies in `[1, 45]`. -/
theorem C3_zoom_clamped (c : Camera F) (yoffset : F) :
    1 ≤ (ProcessMouseScroll c yoffset).Zoom ∧
    (ProcessMouseScroll c yoffset).Zoom ≤ 45 ∧
    (1 ≤ c.Zoom - yoffset → c.Zoom - yoffset ≤ 45 →
      (ProcessMouseScroll c yoffset).Zoom = c.Zoom - yoffset) := by
  simp only [ProcessMouseScroll]
  split_ifs with h1 h2 h2 <;> dsimp only at * <;> refine ⟨?_, ?_, fun _ _ => ?_⟩ <;> linarith

/-- C3 at a concrete camera: scrolling the sample camera (zoom 45) by 5 gives
zoom 40. -/
theorem C3_zoom_clamped_witness :
    1 ≤ sampleCamera.Zoom - 5 ∧ sampleCamera.Zoom - 5 ≤ 45 ∧
    (ProcessMouseScroll sampleCamera 5).Zoom = sampleCamera.Zoom - 5 :=
  ⟨by norm_num [sampleCamera], by norm_num [sampleCamera],
    (C3_zoom_clamped sampleCamera 5).2.2 (by norm_num [sampleCamera])
      (by norm_num [sampleCamera])⟩

/-- C5.  `GetViewMatrix` returns `glm::lookAt` of eye `Position`, target
`Position + Front` and up reference `Up`, which is the standard look-at matrix
built from these three, and leaves the camera state (all ten fields) as it
was. -/
theorem C5_view_matrix_is_lookAt (L : ScalarMath F) (c : Camera F) :
    (GetViewMatrix L c).1 = lookAt L c.Position (c.Position.add c.Front) c.Up ∧
    (GetViewMatrix L c).1 =
      Spec.lookAtStandard L c.Position (c.Position.add c.Front) c.Up ∧
    (GetViewMatrix L c).2 = c :=
  ⟨rfl, lookAt_eq_lookAtStandard L c.Position (c.Position.add c.Front) c.Up, rfl⟩

/-- C7.  `ProcessKeyboard` moves `Position` by `v = MovementSpeed * deltaTime`
along `Front` (plus for FORWARD, minus for BACKWARD) or along `Right` (plus for
RIGHT, minus for LEFT), with no bound, and changes no other field. -/
theorem C7_keyboard_translation (c : Camera F) (direction : Camera_Movement) (deltaTime : F) :
    (ProcessKeyboard c direction deltaTime).Position =
      (match direction with
        | Camera_Movement.FORWARD =>
            c.Position.add (c.Front.smul (c.MovementSpeed * deltaTime))
        | Camera_Movement.BACKWARD =>
            c.Position.sub (c.Front.smul (c.MovementSpeed * deltaTime))
        | Camera_Movement.LEFT =>
            c.Position.sub (c.Right.smul (c.MovementSpeed * deltaTime))
        | Camera_Movement.RIGHT =>
            c.Position.add (c.Right.smul (c.MovementSpeed * deltaTime))) ∧
    (ProcessKeyboard c direction deltaTime).Yaw = c.Yaw ∧
    (ProcessKeyboard c direction deltaTime).Pitch = c.Pitch ∧
    (ProcessKeyboard c direction deltaTime).Zoom = c.Zoom ∧
    (ProcessKeyboard c direction deltaTime).Front = c.Front ∧
    (ProcessKeyboard c direction deltaTime).Right = c.Right ∧
    (ProcessKeyboard c direction deltaTime).Up = c.Up ∧
    (ProcessKeyboard c direction deltaTime).WorldUp = c.WorldUp ∧
    (ProcessKeyboard c direction deltaTime).MovementSpeed = c.MovementSpeed ∧
    (ProcessKeyboard c direction deltaTime).MouseSensitivity = c.MouseSensitivity := by
  cases direction <;> simp [ProcessKeyboard]

/-- C8.  `ProcessMouseMovement` sets `Yaw` to `Yaw + xoffset * MouseSensitivity`
and `Pitch` to `Pitch + yoffset * MouseSensitivity`, clamped into `[-89, 89]`
exactly when `constrainPitch` is true, and then `Front`, `Right`, `Up` are the
specification's basis recomputation at the new `Yaw`, the new `Pitch` and the
unchanged `WorldUp`. -/
theorem C8_mouse_movement (L : ScalarMath F) (c : Camera F) (xoffset yoffset : F)
    (constrainPitch : Bool) :
    (ProcessMouseMovement L c xoffset yoffset constrainPitch).Yaw =
      c.Yaw + xoffset * c.MouseSensitivity ∧
    (ProcessMouseMovement L c xoffset yoffset constrainPitch).Pitch =
      (if constrainPitch then Spec.clampPitch (c.Pitch + yoffset * c.MouseSensitivity)
        else c.Pitch + yoffset * c.MouseSensitivity) ∧
    (ProcessMouseMovement L c xoffset yoffset constrainPitch).WorldUp = c.WorldUp ∧
    (ProcessMouseMovement L c xoffset yoffset constrainPitch).Front =
      Spec.front L (ProcessMouseMovement L c xoffset yoffset constrainPitch).Yaw
        (ProcessMouseMovement L c xoffset yoffset constrainPitch).Pitch ∧
    (ProcessMouseMovement L c xoffset yoffset constrainPitch).Right =
      Spec.right L (ProcessMouseMovement L c xoffset yoffset constrainPitch).Yaw
        (ProcessMouseMovement L c xoffset yoffset constrainPitch).Pitch c.WorldUp ∧
    (ProcessMouseMovement L c xoffset yoffset constrainPitch).Up =
      Spec.up L (ProcessMouseMovement L c xoffset yoffset constrainPitch).Yaw
        (ProcessMouseMovement L c xoffset yoffset constrainPitch).Pitch c.WorldUp := by
  have hW : (ProcessMouseMovement L c xoffset yoffset constrainPitch).WorldUp = c.WorldUp := by
    simp only [ProcessMouseMovement, updateCameraVectors_WorldUp]
    split_ifs <;> rfl
  refine ⟨?_, ?_, hW, rfl, ?_, ?_⟩
  · simp only [ProcessMouseMovement, updateCameraVectors_Yaw]
    split_ifs <;> rfl
  · simp only [ProcessMouseMovement, updateCameraVectors_Pitch, Spec.clampPitch]
    cases constrainPitch
    · simp
    · simp only [if_true]
      split_ifs with h1 h2 h2 <;> dsimp only at *
      · linarith
      · rw [min_eq_right h1.le, max_eq_right (by norm_num)]
      · rw [min_eq_left (not_lt.mp h1), max_eq_left h2.le]
      · rw [min_eq_left (not_lt.mp h1), max_eq_right (not_lt.mp h2)]
  · rw [← hW]; rfl
  · rw [← hW]; rfl

end LearnOpenGL
